import Mathlib

/-!
Verification development for the ResourceAllocation repository
(frontend under src/frontend; the FastAPI backend that implements the
allocation-integrity and approval-workflow engine is not part of the
source snapshot, so those server-side operations are modelled from the
specification, as noted on each definition).

Numeric values arriving over the wire (fte percentages) are modelled as
rationals, so that non-integer inputs are representable; month/year
arithmetic is over Int, exactly the (year*12+month) arithmetic the spec
prescribes.
-/

namespace ResourceAllocation

/-- User roles, from src/frontend/src/types/index.ts (`UserRole`). -/
inductive Role
  | Admin
  | Finance
  | PM
  | RO
  | Director
  | Employee
  deriving DecidableEq, Repr

/-- Period status, from src/frontend/src/types/index.ts (`PeriodStatus`);
the source string `open` is rendered `opened` because `open` is a Lean
keyword. -/
inductive PeriodStatus
  | opened
  | locked
  deriving DecidableEq, Repr

/-- Period, from src/frontend/src/types/index.ts (`Period`), restricted to
the fields the engine reads. -/
structure Period where
  id : String
  tenant_id : String
  year : Int
  month : Int
  status : PeriodStatus
  deriving DecidableEq, Repr

/-- Structured failure codes of the engine, from spec section 7 and the
`codeMessages` table in src/frontend/src/api/planning.ts.  `ActualsOver100`
carries its extras `{resource_id, total_percent}` as the spec requires. -/
inductive ErrCode
  | PeriodLocked
  | DemandXor
  | FteInvalid
  | PlaceholderBlocked4MFC
  | ActualsLocked
  | ActualsOver100 (resource_id : String) (total_percent : Nat)
  | ApproverNotConfigured
  | NotApprover
  | StepNotPending
  | StepOutOfOrder
  | ExplanationRequired
  | InvalidTransition
  deriving DecidableEq, Repr

/-- Modelled from the spec: the FTE bounds/step check shared by
`validateDemand` (step 2) and `validateSupply`.  The backend validator is
not in the source snapshot.  Spec: "fails with FteInvalid if fte_percent
outside [5,100] or not a multiple of 5" and "FTE step validation operates
on integers; reject non-integer or negative values before range check".
The wire value is a rational; integrality (denominator 1) is checked
first, then the integer range/step check on the numerator. -/
def validateFte (q : Rat) : Except ErrCode Unit :=
  if q.den ≠ 1 then .error .FteInvalid
  else if q.num < 5 ∨ 100 < q.num ∨ q.num % 5 ≠ 0 then .error .FteInvalid
  else .ok ()

/-- Candidate DemandLine as submitted to the engine, from
src/frontend/src/api/planning.ts (`CreateDemandLine`): optional
resource/placeholder, target year/month, fte percent. -/
structure DemandCandidate where
  period_id : String
  project_id : String
  resource_id : Option String
  placeholder_id : Option String
  year : Int
  month : Int
  fte_percent : Rat
  deriving DecidableEq, Repr

/-- Month offset computed on (year*12+month) arithmetic, from spec
section 4.2: "compute months between now and (candidate.year,
candidate.month)". -/
def monthsBetween (nowYear nowMonth year month : Int) : Int :=
  (year * 12 + month) - (nowYear * 12 + nowMonth)

/-- Modelled from the spec: step 1 of `validateDemand` — "fails with
DemandXor if both or neither of resource/placeholder set". -/
def demandXorCheck (c : DemandCandidate) : Except ErrCode Unit :=
  match c.resource_id, c.placeholder_id with
  | some _, some _ => .error .DemandXor
  | none, none => .error .DemandXor
  | _, _ => .ok ()

/-- Modelled from the spec: step 3 of `validateDemand` — on the
placeholder branch, "fails with PlaceholderBlocked4MFC if that offset is
within [0,3] inclusive (current month plus next three)". -/
def placeholderWindowCheck (c : DemandCandidate) (nowYear nowMonth : Int) :
    Except ErrCode Unit :=
  match c.placeholder_id with
  | some _ =>
      let offset := monthsBetween nowYear nowMonth c.year c.month
      if 0 ≤ offset ∧ offset ≤ 3 then .error .PlaceholderBlocked4MFC
      else .ok ()
  | none => .ok ()

/-- Modelled from the spec: `validateDemand(candidate, period, now)` of
the Allocation Validator (spec section 4.2): XOR check, then FTE check,
then the placeholder forecast-window check, in that order. -/
def validateDemand (c : DemandCandidate) (nowYear nowMonth : Int) :
    Except ErrCode Unit :=
  match demandXorCheck c with
  | .error e => .error e
  | .ok _ =>
      match validateFte c.fte_percent with
      | .error e => .error e
      | .ok _ => placeholderWindowCheck c nowYear nowMonth

/-- Candidate SupplyLine, from src/frontend/src/api/planning.ts
(`CreateSupplyLine`). -/
structure SupplyCandidate where
  period_id : String
  resource_id : String
  fte_percent : Rat
  deriving DecidableEq, Repr

/-- Modelled from the spec: `validateSupply(candidate, period)` — "FTE
bounds/step check only" (spec section 4.2). -/
def validateSupply (c : SupplyCandidate) : Except ErrCode Unit :=
  validateFte c.fte_percent

/-- ActualLine, from src/frontend/src/api (shape used by Actuals.tsx) and
spec section 3, restricted to the fields the ledger reads.
`actual_fte_percent` is a percentage and is modelled as a natural
number. -/
structure ActualLine where
  id : String
  tenant_id : String
  period_id : String
  resource_id : String
  project_id : String
  actual_fte_percent : Nat
  employee_signed : Bool
  is_proxy_signed : Bool
  proxy_reason : Option String
  deriving DecidableEq, Repr

/-- Whether a line belongs to the aggregation key
`(tenant_id, resource_id, period_id)` of spec section 3. -/
def sameKey (a : ActualLine) (tenant resource period : String) : Bool :=
  a.tenant_id == tenant && a.resource_id == resource && a.period_id == period

/-- Sum of `actual_fte_percent` across all lines sharing
`(tenant_id, resource_id, period_id)`; this is the per-resource total the
frontend also displays (`totalsByResource` in
src/frontend/src/pages/Actuals.tsx, lines 243-250, grouped per resource
within the selected period). -/
def totalFor (lines : List ActualLine) (tenant resource period : String) : Nat :=
  ((lines.filter (fun a => sameKey a tenant resource period)).map
    (fun a => a.actual_fte_percent)).sum

/-- All lines except the one carrying the given id (the previous value of
the line being updated). -/
def withoutId (lines : List ActualLine) (lineId : String) : List ActualLine :=
  lines.filter (fun a => a.id ≠ lineId)

/-- Modelled from the spec: the "prospective resource-period total =
(existing total for that resource/period excluding this line's previous
value) + candidate.actual_fte_percent" of spec section 4.3. -/
def prospectiveTotal (lines : List ActualLine) (c : ActualLine) : Nat :=
  totalFor (withoutId lines c.id) c.tenant_id c.resource_id c.period_id +
    c.actual_fte_percent

/-- Modelled from the spec: `upsertActual(candidate, period)` of the
Actuals Ledger (spec section 4.3): requires the period mutable (fails
PeriodLocked), requires the target line unsigned (fails ActualsLocked),
computes the prospective total including the line being written and fails
with `ActualsOver100 {resource_id, total_percent}` if it exceeds 100;
otherwise commits by replacing/inserting the line. -/
def upsertActual (status : PeriodStatus) (lines : List ActualLine)
    (c : ActualLine) : Except ErrCode (List ActualLine) :=
  if status = .locked then .error .PeriodLocked
  else
    match lines.find? (fun a => a.id == c.id) with
    | some old =>
        if old.employee_signed then .error .ActualsLocked
        else
          let total := prospectiveTotal lines c
          if 100 < total then .error (.ActualsOver100 c.resource_id total)
          else .ok (withoutId lines c.id ++ [c])
    | none =>
        let total := prospectiveTotal lines c
        if 100 < total then .error (.ActualsOver100 c.resource_id total)
        else .ok (withoutId lines c.id ++ [c])

/-- Modelled from the spec: `delete(line_id)` of the Actuals Ledger —
"only while unsigned and period open; fails with ActualsLocked otherwise"
(spec section 4.3), behind the PeriodLocked gate of section 4.1. -/
def deleteActual (status : PeriodStatus) (lines : List ActualLine)
    (lineId : String) : Except ErrCode (List ActualLine) :=
  if status = .locked then .error .PeriodLocked
  else
    match lines.find? (fun a => a.id == lineId) with
    | some old =>
        if old.employee_signed then .error .ActualsLocked
        else .ok (withoutId lines lineId)
    | none => .ok lines

/-- Modelled from the spec: every mutation entry point for Demand "must
call isMutable first and fails with PeriodLocked if false, independent of
role" (spec section 4.1); the role argument is accepted and ignored by the
gate, exactly as the spec demands. -/
def upsertDemand (_role : Role) (p : Period) (c : DemandCandidate)
    (nowYear nowMonth : Int) : Except ErrCode Unit :=
  if p.status = .locked then .error .PeriodLocked
  else validateDemand c nowYear nowMonth

/-- Modelled from the spec: the PeriodLocked gate on Supply writes (spec
sections 4.1 and 4.2). -/
def upsertSupply (_role : Role) (p : Period) (c : SupplyCandidate) :
    Except ErrCode Unit :=
  if p.status = .locked then .error .PeriodLocked
  else validateSupply c

/-- Modelled from the spec: the PeriodLocked gate on Demand deletes (spec
section 4.1). -/
def deleteDemand (_role : Role) (p : Period) (_lineId : String) :
    Except ErrCode Unit :=
  if p.status = .locked then .error .PeriodLocked else .ok ()

/-- Modelled from the spec: the PeriodLocked gate on Supply deletes (spec
section 4.1). -/
def deleteSupply (_role : Role) (p : Period) (_lineId : String) :
    Except ErrCode Unit :=
  if p.status = .locked then .error .PeriodLocked else .ok ()

/-- Modelled from the spec: `upsertActual` reached through the period
gate, independent of role (spec sections 4.1 and 4.3). -/
def upsertActualGated (_role : Role) (p : Period) (lines : List ActualLine)
    (c : ActualLine) : Except ErrCode (List ActualLine) :=
  upsertActual p.status lines c

/-- Modelled from the spec: actuals delete reached through the period
gate, independent of role (spec sections 4.1 and 4.3). -/
def deleteActualGated (_role : Role) (p : Period) (lines : List ActualLine)
    (lineId : String) : Except ErrCode (List ActualLine) :=
  deleteActual p.status lines lineId

/-- Approval step status, from src/frontend/src/pages/Approvals.tsx
(`getStepIcon`/`getStepClass` distinguish these four states) and spec
section 4.4. -/
inductive StepStatus
  | pending
  | approved
  | rejected
  | skipped
  deriving DecidableEq, Repr

/-- Step name, from src/frontend/src/pages/Approvals.tsx (`step_name`
values RO and Director). -/
inductive StepName
  | RO
  | Director
  deriving DecidableEq, Repr

/-- Approval instance status, from spec section 3. -/
inductive InstanceStatus
  | pending
  | approved
  | rejected
  deriving DecidableEq, Repr

/-- ApprovalStep, from spec section 3 and the `ApprovalStep` shape read by
src/frontend/src/pages/Approvals.tsx.  `actioned_by` records attribution
of the action (the RO for a proxy approval). -/
structure ApprovalStep where
  id : String
  step_name : StepName
  sequence : Nat
  approver_id : String
  status : StepStatus
  comment : Option String
  actioned_by : Option String
  deriving DecidableEq, Repr

/-- ApprovalInstance, from spec section 3 and the `ApprovalInstance`
shape read by src/frontend/src/pages/Approvals.tsx. -/
structure ApprovalInstance where
  id : String
  tenant_id : String
  subject_id : String
  status : InstanceStatus
  steps : List ApprovalStep
  deriving DecidableEq, Repr

/-- Modelled from the spec: the derived instance status — "approved iff
every non-skipped step is approved; rejected iff any step is rejected;
else pending" (spec section 4.4). -/
def deriveStatus (steps : List ApprovalStep) : InstanceStatus :=
  if steps.any (fun s => s.status == .rejected) then .rejected
  else if (steps.filter (fun s => s.status != .skipped)).all
      (fun s => s.status == .approved) then .approved
  else .pending

/-- The lowest sequence among the pending steps, used by the
StepOutOfOrder check of spec section 4.4. -/
def lowestPendingSeq (steps : List ApprovalStep) : Option Nat :=
  ((steps.filter (fun s => s.status == .pending)).map
    (fun s => s.sequence)).min?

/-- Modelled from the spec: `ensureApprovalInstance(subject_id)` of spec
section 4.4.  Idempotent: if an instance for the subject exists the list
is returned unchanged.  Otherwise both approvers must resolve (else
ApproverNotConfigured and nothing is created); the RO step is created at
sequence 1 and marked skipped immediately when the resolved RO equals the
resolved Director, the Director step is created pending at sequence 2. -/
def ensureApprovalInstance (instances : List ApprovalInstance)
    (tenant subject : String) (ro_user director_user : Option String) :
    Except ErrCode (List ApprovalInstance) :=
  if instances.any (fun i => i.subject_id == subject) then .ok instances
  else
    match ro_user, director_user with
    | some ro, some dir =>
        let roStatus : StepStatus := if ro == dir then .skipped else .pending
        let roStep : ApprovalStep :=
          { id := subject ++ ":ro", step_name := .RO, sequence := 1,
            approver_id := ro, status := roStatus, comment := none,
            actioned_by := none }
        let dirStep : ApprovalStep :=
          { id := subject ++ ":director", step_name := .Director,
            sequence := 2, approver_id := dir, status := .pending,
            comment := none, actioned_by := none }
        .ok (instances ++
          [{ id := subject ++ ":inst", tenant_id := tenant,
             subject_id := subject, status := .pending,
             steps := [roStep, dirStep] }])
    | _, _ => .error .ApproverNotConfigured

/-- Modelled from the spec: `approveStep(instance_id, step_id, approver,
comment?)` — NotApprover unless the caller is the step's approver,
StepNotPending unless the step is pending, StepOutOfOrder unless the
step's sequence is the lowest pending sequence; on success the step is
approved and the instance status re-derived (spec section 4.4). -/
def approveStep (inst : ApprovalInstance) (stepId approverId : String)
    (comment : Option String) : Except ErrCode ApprovalInstance :=
  match inst.steps.find? (fun s => s.id == stepId) with
  | none => .error .StepNotPending
  | some st =>
      if st.approver_id ≠ approverId then .error .NotApprover
      else if st.status ≠ .pending then .error .StepNotPending
      else if lowestPendingSeq inst.steps ≠ some st.sequence then
        .error .StepOutOfOrder
      else
        let steps2 := inst.steps.map (fun s =>
          if s.id == stepId then
            { s with status := StepStatus.approved, comment := comment,
                     actioned_by := some approverId }
          else s)
        .ok { inst with status := deriveStatus steps2, steps := steps2 }

/-- Modelled from the spec: `rejectStep(...)` — "same
authorization/ordering checks; sets step rejected; the entire instance
transitions to rejected immediately regardless of other steps' status;
any remaining pending steps are left as-is" (spec section 4.4). -/
def rejectStep (inst : ApprovalInstance) (stepId approverId : String)
    (comment : Option String) : Except ErrCode ApprovalInstance :=
  match inst.steps.find? (fun s => s.id == stepId) with
  | none => .error .StepNotPending
  | some st =>
      if st.approver_id ≠ approverId then .error .NotApprover
      else if st.status ≠ .pending then .error .StepNotPending
      else if lowestPendingSeq inst.steps ≠ some st.sequence then
        .error .StepOutOfOrder
      else
        let steps2 := inst.steps.map (fun s =>
          if s.id == stepId then
            { s with status := StepStatus.rejected, comment := comment,
                     actioned_by := some approverId }
          else s)
        .ok { inst with status := InstanceStatus.rejected, steps := steps2 }

/-- The instance's RO step, as the frontend selects it (`getRoStep` in
src/frontend/src/pages/Approvals.tsx). -/
def findRoStep (inst : ApprovalInstance) : Option ApprovalStep :=
  inst.steps.find? (fun s => s.step_name == .RO)

/-- The instance's Director step (`getDirectorStep` in
src/frontend/src/pages/Approvals.tsx). -/
def findDirectorStep (inst : ApprovalInstance) : Option ApprovalStep :=
  inst.steps.find? (fun s => s.step_name == .Director)

/-- Modelled from the spec: `proxyApproveDirectorStep(instance_id,
step_id, ro_user, explanation)` — explanation mandatory and non-empty
(ExplanationRequired), only legal when the caller's role is RO, the RO
step's approver is the caller and that step is approved, and the Director
step is pending; the effect is a Director approval attributed to the RO
with the comment tagged as a proxy action (spec section 4.4).  The
frontend precondition `canProxyApprove` in
src/frontend/src/pages/Approvals.tsx mirrors the RO-approved /
Director-pending state check. -/
def proxyApproveDirectorStep (inst : ApprovalInstance) (stepId : String)
    (userId : String) (role : Role) (explanation : String) :
    Except ErrCode ApprovalInstance :=
  if explanation == "" then .error .ExplanationRequired
  else if role ≠ .RO then .error .NotApprover
  else
    match findRoStep inst, findDirectorStep inst with
    | some ro, some dir =>
        if ro.approver_id ≠ userId then .error .NotApprover
        else if ro.status ≠ .approved then .error .StepNotPending
        else if dir.status ≠ .pending then .error .StepNotPending
        else if dir.id ≠ stepId then .error .StepNotPending
        else
          let steps2 := inst.steps.map (fun s =>
            if s.id == stepId then
              { s with status := StepStatus.approved,
                       comment := some ("proxy: " ++ explanation),
                       actioned_by := some userId }
            else s)
          .ok { inst with status := deriveStatus steps2, steps := steps2 }
    | _, _ => .error .StepNotPending

/-- Number of approval instances recorded for a subject. -/
def countFor (instances : List ApprovalInstance) (subject : String) : Nat :=
  (instances.filter (fun i => i.subject_id == subject)).length

/-- Modelled from the spec: `sign(line_id, signer)` of the Actuals Ledger
(spec section 4.3) — sets `employee_signed_at` and then calls
`ensureApprovalInstance(line_id)` atomically: if instance creation fails
the sign action itself is rejected. -/
def signActual (lines : List ActualLine) (instances : List ApprovalInstance)
    (tenant lineId : String) (ro_user director_user : Option String) :
    Except ErrCode (List ActualLine × List ApprovalInstance) :=
  match lines.find? (fun a => a.id == lineId) with
  | none => .error .ActualsLocked
  | some _ =>
      match ensureApprovalInstance instances tenant lineId ro_user
          director_user with
      | .error e => .error e
      | .ok instances2 =>
          .ok (lines.map (fun a =>
            if a.id == lineId then { a with employee_signed := true } else a),
            instances2)

/-- Whitespace trimming of JavaScript's `String.prototype.trim` (and of
Python's `strip`), written over the character list so that it is fully
executable. -/
def strTrim (s : String) : String :=
  String.mk
    (((s.data.dropWhile Char.isWhitespace).reverse.dropWhile
      Char.isWhitespace).reverse)

/-- Truthiness of an optional string field under JavaScript semantics:
`undefined` (none) and the empty string are falsy. -/
def jsTruthy : Option String → Bool
  | none => false
  | some s => s != ""

/-- The demand form state (`formData` plus the `useResource` toggle) of
src/frontend/src/pages/Demand.tsx; `resource_id` and `placeholder_id`
start absent (undefined). -/
structure DemandFormData where
  project_id : String
  resource_id : Option String
  placeholder_id : Option String
  year : Int
  month : Int
  fte_percent : Rat
  deriving DecidableEq, Repr

/-- The body submitted to POST /demand-lines (`CreateDemandLine` in
src/frontend/src/api/planning.ts); absent optional fields are dropped by
JSON serialization, so they are `none` here. -/
structure CreateDemandLine where
  period_id : String
  project_id : String
  resource_id : Option String
  placeholder_id : Option String
  fte_percent : Rat
  year : Option Int
  month : Option Int
  deriving DecidableEq, Repr

/-- `handleCreate` of src/frontend/src/pages/Demand.tsx, lines 151-197
(the guarded variant, identical in structure to the one at lines
1028-1073): refuses to submit unless the caller can edit, a project is
chosen, and — depending on `useResource` — a resource or a placeholder is
chosen; on submit exactly one of resource/placeholder is kept and the
other deleted.  Returns the submitted candidate, or none when no request
is sent. -/
def handleCreateGuarded (canEdit : Bool) (useResource : Bool)
    (selectedPeriod : String) (fd : DemandFormData) : Option CreateDemandLine :=
  if !canEdit then none
  else if fd.project_id == "" then none
  else if useResource && !(jsTruthy fd.resource_id) then none
  else if !useResource && !(jsTruthy fd.placeholder_id) then none
  else
    some { period_id := selectedPeriod, project_id := fd.project_id,
           resource_id := if useResource then fd.resource_id else none,
           placeholder_id := if useResource then none else fd.placeholder_id,
           fte_percent := fd.fte_percent,
           year := some fd.year, month := some fd.month }

/-- `handleCreate` of src/frontend/src/pages/Demand.tsx, lines 587-618
(the unguarded variant): spreads the form data into the request body and
deletes the side not selected by `useResource`, with no presence checks —
it always submits. -/
def handleCreateUnguarded (useResource : Bool) (selectedPeriod : String)
    (fd : DemandFormData) : CreateDemandLine :=
  { period_id := selectedPeriod, project_id := fd.project_id,
    resource_id := if useResource then fd.resource_id else none,
    placeholder_id := if useResource then none else fd.placeholder_id,
    fte_percent := fd.fte_percent,
    year := some fd.year, month := some fd.month }

/-- Exactly one of resource/placeholder is set (the XOR invariant of spec
section 3 on the submitted presence of the two fields). -/
def xorSet (resource_id placeholder_id : Option String) : Bool :=
  resource_id.isSome != placeholder_id.isSome

/-- The default `formData` of the Demand page at lines 531-537 of
src/frontend/src/pages/Demand.tsx: `resource_id` and `placeholder_id`
are absent. -/
def initialDemandForm : DemandFormData :=
  { project_id := "", resource_id := none, placeholder_id := none,
    year := 2025, month := 10, fte_percent := 50 }

/-- A sign-actuals request as issued by src/frontend/src/api/actuals
(`signActuals` / `proxySignActuals`). -/
inductive SignRequest
  | signReq (lineId : String)
  | proxySignReq (lineId : String) (reason : String)
  deriving DecidableEq, Repr

/-- `handleSign` of src/frontend/src/pages/Actuals.tsx, lines 204-229:
returns the request sent to the API, or none when nothing is sent (no
selected line, or a proxy sign whose reason trims to the empty string,
which only shows an error). -/
def handleSign (selectedActual : Option String) (isProxySign : Bool)
    (proxyReason : String) : Option SignRequest :=
  match selectedActual with
  | none => none
  | some lineId =>
      if isProxySign then
        if strTrim proxyReason == "" then none
        else some (.proxySignReq lineId proxyReason)
      else some (.signReq lineId)

/-- The three dialog action types of src/frontend/src/pages/Approvals.tsx
(`actionType`). -/
inductive ApprovalActionType
  | approve
  | reject
  | proxyApprove
  deriving DecidableEq, Repr

/-- An approval request as issued by src/frontend/src/api/approvals. -/
inductive ApprovalRequest
  | approveReq (instanceId stepId : String) (comment : Option String)
  | rejectReq (instanceId stepId : String) (comment : Option String)
  | proxyApproveReq (instanceId stepId : String) (explanation : String)
  deriving DecidableEq, Repr

/-- `handleAction` of src/frontend/src/pages/Approvals.tsx, lines
167-200: returns the request sent, or none when nothing is sent (no
selection, or a proxy approval whose comment is empty or trims to the
empty string — `!comment || !comment.trim()` — which only shows a
validation error).  For approve/reject the comment is passed as
`comment || undefined`. -/
def handleAction (selected : Option (String × String))
    (actionType : ApprovalActionType) (comment : String) :
    Option ApprovalRequest :=
  match selected with
  | none => none
  | some (instanceId, stepId) =>
      if actionType == .proxyApprove &&
          (comment == "" || strTrim comment == "") then none
      else
        match actionType with
        | .approve =>
            some (.approveReq instanceId stepId
              (if comment == "" then none else some comment))
        | .proxyApprove => some (.proxyApproveReq instanceId stepId comment)
        | .reject =>
            some (.rejectReq instanceId stepId
              (if comment == "" then none else some comment))

/-- The `disabled` predicate on the confirm button of the action dialog in
src/frontend/src/pages/Approvals.tsx, lines 403-412:
`actionType === 'proxy-approve' && (!comment || !comment.trim())`. -/
def proxyConfirmDisabled (actionType : ApprovalActionType)
    (comment : String) : Bool :=
  actionType == .proxyApprove && (comment == "" || strTrim comment == "")

/-! Concrete inputs used by witness theorems. -/

/-- A completely filled demand form on the named-resource branch. -/
def demandFormW : DemandFormData :=
  { project_id := "pr1"
    resource_id := some "r1"
    placeholder_id := none
    year := 2026
    month := 6
    fte_percent := 50 }

/-- The request body the guarded `handleCreate` submits for
`demandFormW`. -/
def createDemandW : CreateDemandLine :=
  { period_id := "p1"
    project_id := "pr1"
    resource_id := some "r1"
    placeholder_id := none
    fte_percent := 50
    year := some 2026
    month := some 6 }

/-- An unsigned actual line: 30% for resource r on period p. -/
def actualW1 : ActualLine :=
  { id := "a1"
    tenant_id := "t"
    period_id := "p"
    resource_id := "r"
    project_id := "pr1"
    actual_fte_percent := 30
    employee_signed := false
    is_proxy_signed := false
    proxy_reason := none }

/-- A second unsigned actual line: 45% for the same resource and
period. -/
def actualW2 : ActualLine :=
  { id := "a2"
    tenant_id := "t"
    period_id := "p"
    resource_id := "r"
    project_id := "pr2"
    actual_fte_percent := 45
    employee_signed := false
    is_proxy_signed := false
    proxy_reason := none }

/-- A third write of 30% for the same resource and period, pushing the
total to 105. -/
def actualW3 : ActualLine :=
  { id := "a3"
    tenant_id := "t"
    period_id := "p"
    resource_id := "r"
    project_id := "pr3"
    actual_fte_percent := 30
    employee_signed := false
    is_proxy_signed := false
    proxy_reason := none }

/-- The ledger after committing `actualW1` and `actualW2`. -/
def actualsLedgerW : List ActualLine := [actualW1, actualW2]

/-- The ledger after inserting `actualW2` into `[actualW1]`. -/
def actualsResultW : List ActualLine := [actualW1, actualW2]

/-- The instance list produced by `ensureApprovalInstance` on an empty
store for subject a1 with RO = Director = u1. -/
def ensureResultW : List ApprovalInstance :=
  [{ id := "a1:inst"
     tenant_id := "t"
     subject_id := "a1"
     status := .pending
     steps :=
       [{ id := "a1:ro"
          step_name := .RO
          sequence := 1
          approver_id := "u1"
          status := .skipped
          comment := none
          actioned_by := none },
        { id := "a1:director"
          step_name := .Director
          sequence := 2
          approver_id := "u1"
          status := .pending
          comment := none
          actioned_by := none }] }]

/-- An approval instance whose RO step (u1) and Director step (u2) are
both pending. -/
def instBothPendingW : ApprovalInstance :=
  { id := "i1"
    tenant_id := "t"
    subject_id := "a1"
    status := .pending
    steps :=
      [{ id := "s1"
         step_name := .RO
         sequence := 1
         approver_id := "u1"
         status := .pending
         comment := none
         actioned_by := none },
       { id := "s2"
         step_name := .Director
         sequence := 2
         approver_id := "u2"
         status := .pending
         comment := none
         actioned_by := none }] }

/-- `instBothPendingW` after its RO step was rejected by u1. -/
def instRejectedW : ApprovalInstance :=
  { id := "i1"
    tenant_id := "t"
    subject_id := "a1"
    status := .rejected
    steps :=
      [{ id := "s1"
         step_name := .RO
         sequence := 1
         approver_id := "u1"
         status := .rejected
         comment := none
         actioned_by := some "u1" },
       { id := "s2"
         step_name := .Director
         sequence := 2
         approver_id := "u2"
         status := .pending
         comment := none
         actioned_by := none }] }

/-- An approval instance whose RO step (u1) is approved and whose
Director step (u2, step id s2) is pending — the proxy-approve state. -/
def instRoApprovedW : ApprovalInstance :=
  { id := "i2"
    tenant_id := "t"
    subject_id := "a2"
    status := .pending
    steps :=
      [{ id := "s1"
         step_name := .RO
         sequence := 1
         approver_id := "u1"
         status := .approved
         comment := none
         actioned_by := some "u1" },
       { id := "s2"
         step_name := .Director
         sequence := 2
         approver_id := "u2"
         status := .pending
         comment := none
         actioned_by := none }] }

/-- A one-element instance store holding an instance for subject a1. -/
def instanceStoreW : List ApprovalInstance := [instBothPendingW]

/-- A locked period. -/
def lockedPeriodW : Period :=
  { id := "p1"
    tenant_id := "t"
    year := 2025
    month := 10
    status := .locked }

/-- A demand candidate used against the locked period. -/
def demandCandW : DemandCandidate :=
  { period_id := "p1"
    project_id := "pr1"
    resource_id := some "r1"
    placeholder_id := none
    year := 2025
    month := 10
    fte_percent := 50 }

/-! Helper lemmas shared by the claim theorems. -/

/-- Removing lines never increases a resource-period total. -/
lemma totalFor_filter_le (l : List ActualLine) (f : ActualLine → Bool)
    (t r p : String) : totalFor (l.filter f) t r p ≤ totalFor l t r p := by
  unfold totalFor
  apply List.Sublist.sum_le_sum
  · exact ((List.filter_sublist l).filter _).map _
  · intro a _
    exact Nat.zero_le a

/-- Totals distribute over list append. -/
lemma totalFor_append (l₁ l₂ : List ActualLine) (t r p : String) :
    totalFor (l₁ ++ l₂) t r p = totalFor l₁ t r p + totalFor l₂ t r p := by
  simp [totalFor, List.filter_append]

/-- A truthy optional string is present. -/
lemma jsTruthy_isSome (o : Option String) (h : jsTruthy o = true) :
    o.isSome = true := by
  cases o with
  | none => simp [jsTruthy] at h
  | some s => rfl

/-! C9 -/

/-- C9: a candidate Demand or Supply line whose fte_percent is outside
[5,100] or not a multiple of 5 fails with FteInvalid; non-integer (and
negative) values are rejected by the same validator before the range
check, so every accepted line has an integer fte_percent in
{5,10,...,100}.  Conjunct 1 characterises acceptance, conjunct 2 shows
the only rejection code is FteInvalid, conjuncts 3 and 4 tie the shared
check into validateSupply and validateDemand. -/
theorem c9_fte_step_validation :
    ∀ q : Rat,
      (validateFte q = .ok () ↔
        ∃ n : ℤ, q = (n : ℚ) ∧ 5 ≤ n ∧ n ≤ 100 ∧ n % 5 = 0) ∧
      (validateFte q = .ok () ∨ validateFte q = .error .FteInvalid) ∧
      (∀ c : SupplyCandidate, validateSupply c = validateFte c.fte_percent) ∧
      (∀ (c : DemandCandidate) (nowYear nowMonth : Int),
        demandXorCheck c = .ok () →
        validateFte c.fte_percent = .error .FteInvalid →
        validateDemand c nowYear nowMonth = .error .FteInvalid) := by
  intro q
  refine ⟨⟨?_, ?_⟩, ?_, fun _ => rfl, ?_⟩
  · intro h
    by_cases hd : q.den = 1
    · simp [validateFte, hd] at h
      exact ⟨q.num, ((Rat.den_eq_one_iff q).mp hd).symm,
        by omega, by omega, by omega⟩
    · simp [validateFte, hd] at h
  · rintro ⟨n, rfl, h5, h100, hm⟩
    unfold validateFte
    rw [if_neg (by simp), if_neg (by simp; omega)]
  · unfold validateFte
    split
    · exact Or.inr rfl
    split
    · exact Or.inr rfl
    · exact Or.inl rfl
  · intro c ny nm hxor hfte
    simp [validateDemand, hxor, hfte]

/-- C9 witness: fte 35 is accepted (via the characterisation, the supply
validator agreeing with the shared check), and a demand candidate with
fte 7/2 (non-integer) is rejected with FteInvalid through
validateDemand. -/
theorem c9_fte_step_validation_witness :
    validateFte 35 = .ok () ∧
    validateSupply
      { period_id := "p1"
        resource_id := "r1"
        fte_percent := 35 } = validateFte 35 ∧
    validateDemand
      { period_id := "p1"
        project_id := "pr1"
        resource_id := some "r1"
        placeholder_id := none
        year := 2025
        month := 10
        fte_percent := mkRat 7 2 } 2025 10 = .error .FteInvalid :=
  ⟨(c9_fte_step_validation 35).1.mpr ⟨35, by norm_num⟩,
   (c9_fte_step_validation 35).2.2.1 _,
   (c9_fte_step_validation (mkRat 7 2)).2.2.2 _ 2025 10 rfl (by rfl)⟩

/-! C3 -/

/-- C3: for a candidate DemandLine on the placeholder branch that passes
the earlier XOR and FTE checks, the write fails with
PlaceholderBlocked4MFC exactly when the month offset from now, computed
by (year*12+month) arithmetic, lies in [0,3] inclusive — so the window
boundary is inclusive on both ends. -/
theorem c3_placeholder_4mfc_window :
    ∀ (c : DemandCandidate) (nowYear nowMonth : Int) (pid : String),
      c.resource_id = none → c.placeholder_id = some pid →
      validateFte c.fte_percent = .ok () →
      (validateDemand c nowYear nowMonth = .error .PlaceholderBlocked4MFC ↔
        (0 ≤ monthsBetween nowYear nowMonth c.year c.month ∧
          monthsBetween nowYear nowMonth c.year c.month ≤ 3)) := by
  intro c ny nm pid hres hph hfte
  have hxor : demandXorCheck c = .ok () := by
    unfold demandXorCheck
    rw [hres, hph]
  by_cases h : 0 ≤ monthsBetween ny nm c.year c.month ∧
      monthsBetween ny nm c.year c.month ≤ 3
  · simp [validateDemand, hxor, hfte, placeholderWindowCheck, hph, h]
  · simp [validateDemand, hxor, hfte, placeholderWindowCheck, hph, h]

/-- C3 witness: with now = 2025-10, a placeholder demand line targeting
2026-01 (offset exactly 3, the far inclusive boundary) is rejected with
PlaceholderBlocked4MFC. -/
theorem c3_placeholder_4mfc_window_witness :
    validateDemand
      { period_id := "p1"
        project_id := "pr1"
        resource_id := none
        placeholder_id := some "ph1"
        year := 2026
        month := 1
        fte_percent := 50 } 2025 10 = .error .PlaceholderBlocked4MFC :=
  (c3_placeholder_4mfc_window _ 2025 10 "ph1" rfl rfl (by rfl)).mpr
    (by decide)

/-! C2 -/

/-- C2 counterexample: invoking the demand-creation path `handleCreate`
of src/frontend/src/pages/Demand.tsx lines 587-618 with the page's
initial form state (resource and placeholder both absent, useResource
true) submits a candidate with neither resource_id nor placeholder_id
set, so not every invocation of the demand-creation path submits a
candidate satisfying the XOR. -/
theorem c2_demand_xor_counterexample :
    (handleCreateUnguarded true "p1" initialDemandForm).resource_id = none ∧
    (handleCreateUnguarded true "p1" initialDemandForm).placeholder_id =
      none ∧
    xorSet (handleCreateUnguarded true "p1" initialDemandForm).resource_id
      (handleCreateUnguarded true "p1" initialDemandForm).placeholder_id =
      false :=
  ⟨rfl, rfl, rfl⟩

/-- C2 amended: the guarded demand-creation path (handleCreate with
presence checks, Demand.tsx lines 151-197 and 1028-1073) only submits
candidates with exactly one of resource_id/placeholder_id set; no
creation path ever submits both; and the validator rejects any candidate
with both or neither set with DemandXor, so every accepted (persisted)
DemandLine satisfies the XOR — but the unguarded creation path at lines
587-618 can submit a candidate with neither set. -/
theorem c2_demand_xor :
    (∀ (canEdit useResource : Bool) (sp : String) (fd : DemandFormData)
        (d : CreateDemandLine),
      handleCreateGuarded canEdit useResource sp fd = some d →
      xorSet d.resource_id d.placeholder_id = true) ∧
    (∀ (useResource : Bool) (sp : String) (fd : DemandFormData),
      ¬((handleCreateUnguarded useResource sp fd).resource_id.isSome =
          true ∧
        (handleCreateUnguarded useResource sp fd).placeholder_id.isSome =
          true)) ∧
    (∀ (c : DemandCandidate) (nowYear nowMonth : Int),
      ((c.resource_id = none ∧ c.placeholder_id = none) ∨
        (c.resource_id.isSome = true ∧ c.placeholder_id.isSome = true)) →
      validateDemand c nowYear nowMonth = .error .DemandXor) ∧
    (∀ (c : DemandCandidate) (nowYear nowMonth : Int),
      validateDemand c nowYear nowMonth = .ok () →
      xorSet c.resource_id c.placeholder_id = true) := by
  refine ⟨?_, ?_, ?_, ?_⟩
  · intro canEdit useResource sp fd d h
    unfold handleCreateGuarded at h
    split at h
    · exact Option.noConfusion h
    split at h
    · exact Option.noConfusion h
    split at h
    · exact Option.noConfusion h
    split at h
    · exact Option.noConfusion h
    rename_i h1 h2 h3 h4
    rw [Option.some_inj] at h
    subst h
    cases hu : useResource with
    | false =>
        rw [hu] at h4
        simp at h4
        simp [xorSet, hu, jsTruthy_isSome _ h4]
    | true =>
        rw [hu] at h3
        simp at h3
        simp [xorSet, hu, jsTruthy_isSome _ h3]
  · intro useResource sp fd
    cases useResource <;> simp [handleCreateUnguarded]
  · intro c ny nm h
    rcases h with ⟨hr, hp⟩ | ⟨hr, hp⟩
    · simp [validateDemand, demandXorCheck, hr, hp]
    · obtain ⟨a, ha⟩ := Option.isSome_iff_exists.mp hr
      obtain ⟨b, hb⟩ := Option.isSome_iff_exists.mp hp
      simp [validateDemand, demandXorCheck, ha, hb]
  · intro c ny nm h
    cases hr : c.resource_id with
    | none =>
        cases hp : c.placeholder_id with
        | none =>
            exfalso
            simp [validateDemand, demandXorCheck, hr, hp] at h
        | some b => simp [xorSet, hr, hp]
    | some a =>
        cases hp : c.placeholder_id with
        | none => simp [xorSet, hr, hp]
        | some b =>
            exfalso
            simp [validateDemand, demandXorCheck, hr, hp] at h

/-- C2 witness: the guarded path submits the expected candidate for a
fully-filled resource-branch form, and that candidate satisfies the
XOR. -/
theorem c2_demand_xor_witness :
    handleCreateGuarded true true "p1" demandFormW = some createDemandW ∧
    xorSet createDemandW.resource_id createDemandW.placeholder_id = true :=
  ⟨by rfl, c2_demand_xor.1 true true "p1" demandFormW createDemandW (by rfl)⟩

/-! C10 -/

/-- C10: a whitespace-only justification is treated as missing at the
client interface — `handleSign` sends a proxy-sign request only when the
reason does not trim to the empty string (otherwise nothing is sent),
`handleAction` sends a proxy-approve request only when the explanation
does not trim empty, and the confirm button of the proxy-approve dialog
is disabled whenever the comment trims empty, so these paths never send
the server a whitespace-only proxy reason or explanation. -/
theorem c10_whitespace_proxy_justifications :
    (∀ (sel : Option String) (reason : String) (req : SignRequest),
      handleSign sel true reason = some req →
      strTrim reason ≠ "" ∧ ∃ lineId, req = .proxySignReq lineId reason) ∧
    (∀ (sel : Option (String × String)) (comment : String)
        (req : ApprovalRequest),
      handleAction sel .proxyApprove comment = some req →
      strTrim comment ≠ "" ∧
        ∃ instanceId stepId,
          req = .proxyApproveReq instanceId stepId comment) ∧
    (∀ comment : String, strTrim comment = "" →
      proxyConfirmDisabled .proxyApprove comment = true) := by
  refine ⟨?_, ?_, ?_⟩
  · intro sel reason req h
    cases sel with
    | none => exact Option.noConfusion h
    | some lineId =>
        unfold handleSign at h
        by_cases ht : strTrim reason = ""
        · simp [ht] at h
        · simp [ht] at h
          exact ⟨ht, lineId, h.symm⟩
  · intro sel comment req h
    cases sel with
    | none => exact Option.noConfusion h
    | some pair =>
        obtain ⟨instanceId, stepId⟩ := pair
        unfold handleAction at h
        by_cases hc : comment = ""
        · simp [hc] at h
        · by_cases ht : strTrim comment = ""
          · simp [hc, ht] at h
          · simp [hc, ht] at h
            exact ⟨ht, instanceId, stepId, h.symm⟩
  · intro comment h
    simp [proxyConfirmDisabled, h]

/-- C10 witness: a proxy sign with reason "on leave" is actually sent and
its reason does not trim empty; a whitespace-only comment disables the
proxy-approve confirm button. -/
theorem c10_whitespace_proxy_justifications_witness :
    (strTrim "on leave" ≠ "" ∧
      ∃ lineId, SignRequest.proxySignReq "a1" "on leave" =
        .proxySignReq lineId "on leave") ∧
    proxyConfirmDisabled .proxyApprove "  " = true :=
  ⟨c10_whitespace_proxy_justifications.1 (some "a1") "on leave"
      (.proxySignReq "a1" "on leave") (by rfl),
   c10_whitespace_proxy_justifications.2.2 "  " (by rfl)⟩

/-! Helper lemmas for the approval workflow. -/

/-- ensureApprovalInstance is a no-op when an instance for the subject
already exists. -/
lemma ensure_existing (instances : List ApprovalInstance)
    (tenant subject : String) (ro dir : Option String)
    (h : instances.any (fun i => i.subject_id == subject) = true) :
    ensureApprovalInstance instances tenant subject ro dir =
      .ok instances := by
  simp [ensureApprovalInstance, h]

/-- After a successful ensure, the store holds an instance for the
subject. -/
lemma ensure_ok_any (instances result : List ApprovalInstance)
    (tenant subject : String) (ro dir : Option String)
    (h : ensureApprovalInstance instances tenant subject ro dir =
      .ok result) :
    result.any (fun i => i.subject_id == subject) = true := by
  unfold ensureApprovalInstance at h
  by_cases hany : instances.any (fun i => i.subject_id == subject) = true
  · simp [hany] at h
    rw [← h]
    exact hany
  · simp [hany] at h
    cases ro with
    | none => simp at h
    | some r =>
        cases dir with
        | none => simp at h
        | some d =>
            simp at h
            rw [← h]
            simp [List.any_append]
  -- the appended instance carries the subject itself

/-- When no instance for the subject exists, its count is zero. -/
lemma countFor_zero (instances : List ApprovalInstance) (subject : String)
    (h : instances.any (fun i => i.subject_id == subject) = false) :
    countFor instances subject = 0 := by
  unfold countFor
  rw [List.any_eq_false] at h
  rw [List.length_eq_zero, List.filter_eq_nil_iff]
  intro a ha
  exact h a ha

/-- A successful ensure keeps the per-subject instance count at most
one. -/
lemma ensure_count_le (instances result : List ApprovalInstance)
    (tenant subject : String) (ro dir : Option String)
    (h : ensureApprovalInstance instances tenant subject ro dir =
      .ok result)
    (hle : countFor instances subject ≤ 1) :
    countFor result subject ≤ 1 := by
  unfold ensureApprovalInstance at h
  by_cases hany : instances.any (fun i => i.subject_id == subject) = true
  · simp [hany] at h
    rw [← h]
    exact hle
  · simp [hany] at h
    cases ro with
    | none => simp at h
    | some r =>
        cases dir with
        | none => simp at h
        | some d =>
            simp at h
            rw [← h]
            have h0 := countFor_zero instances subject
              (by simpa using hany)
            unfold countFor at h0 ⊢
            simp [List.filter_append, h0]

/-- approveStep succeeds when the caller is the approver of a pending
step whose sequence is the lowest pending one. -/
lemma approveStep_ok (inst : ApprovalInstance)
    (stepId approverId : String) (comment : Option String)
    (st : ApprovalStep)
    (hfind : inst.steps.find? (fun s => s.id == stepId) = some st)
    (ha : st.approver_id = approverId) (hp : st.status = .pending)
    (hseq : lowestPendingSeq inst.steps = some st.sequence) :
    ∃ inst2, approveStep inst stepId approverId comment = .ok inst2 := by
  simp [approveStep, hfind, ha, hp, hseq]

/-- rejectStep succeeds under the same conditions as approveStep. -/
lemma rejectStep_ok (inst : ApprovalInstance)
    (stepId approverId : String) (comment : Option String)
    (st : ApprovalStep)
    (hfind : inst.steps.find? (fun s => s.id == stepId) = some st)
    (ha : st.approver_id = approverId) (hp : st.status = .pending)
    (hseq : lowestPendingSeq inst.steps = some st.sequence) :
    ∃ inst2, rejectStep inst stepId approverId comment = .ok inst2 := by
  simp [rejectStep, hfind, ha, hp, hseq]

/-! C5 -/

/-- C5: when the resolved RO approver equals the resolved Director
approver, the instance is created with the RO step at sequence 1 in the
distinct terminal state skipped (so in particular not approved) and the
Director step pending at sequence 2 with that approver, the instance
itself pending. -/
theorem c5_skip_rule :
    ∀ (instances : List ApprovalInstance) (tenant subject u : String)
      (result : List ApprovalInstance),
      instances.any (fun i => i.subject_id == subject) = false →
      ensureApprovalInstance instances tenant subject (some u) (some u) =
        .ok result →
      ∃ inst roStep dirStep,
        result = instances ++ [inst] ∧ inst.steps = [roStep, dirStep] ∧
        inst.status = .pending ∧
        roStep.step_name = .RO ∧ roStep.sequence = 1 ∧
        roStep.approver_id = u ∧ roStep.status = .skipped ∧
        roStep.status ≠ .approved ∧
        dirStep.step_name = .Director ∧ dirStep.sequence = 2 ∧
        dirStep.approver_id = u ∧ dirStep.status = .pending := by
  intro instances tenant subject u result hno h
  unfold ensureApprovalInstance at h
  simp [hno] at h
  refine ⟨_, _, _, h.symm, rfl, rfl, rfl, rfl, rfl, rfl, ?_, rfl, rfl,
    rfl, rfl⟩
  exact fun hcontra => StepStatus.noConfusion hcontra

/-- C5 witness: ensuring an instance on an empty store for subject a1
with RO = Director = u1 yields exactly the skipped-RO / pending-Director
shape. -/
theorem c5_skip_rule_witness :
    ensureApprovalInstance [] "t" "a1" (some "u1") (some "u1") =
      .ok ensureResultW ∧
    (∃ inst roStep dirStep,
      ensureResultW = [] ++ [inst] ∧ inst.steps = [roStep, dirStep] ∧
      inst.status = .pending ∧
      roStep.step_name = .RO ∧ roStep.sequence = 1 ∧
      roStep.approver_id = "u1" ∧ roStep.status = .skipped ∧
      roStep.status ≠ .approved ∧
      dirStep.step_name = .Director ∧ dirStep.sequence = 2 ∧
      dirStep.approver_id = "u1" ∧ dirStep.status = .pending) :=
  ⟨by rfl, c5_skip_rule [] "t" "a1" "u1" ensureResultW rfl (by rfl)⟩

/-! C8 -/

/-- C8: ApprovalInstance creation is idempotent per subject — ensure is a
no-op when an instance for the subject exists, a second ensure after a
successful one changes nothing, a successful ensure keeps the per-subject
count at most one, and signing (which runs ensure atomically) therefore
never yields more than one instance for the same subject. -/
theorem c8_sign_ensure_idempotent :
    (∀ (instances : List ApprovalInstance) (tenant subject : String)
        (ro dir : Option String),
      instances.any (fun i => i.subject_id == subject) = true →
      ensureApprovalInstance instances tenant subject ro dir =
        .ok instances) ∧
    (∀ (instances result : List ApprovalInstance) (tenant subject : String)
        (ro dir : Option String),
      ensureApprovalInstance instances tenant subject ro dir = .ok result →
      ensureApprovalInstance result tenant subject ro dir = .ok result) ∧
    (∀ (instances result : List ApprovalInstance) (tenant subject : String)
        (ro dir : Option String),
      ensureApprovalInstance instances tenant subject ro dir = .ok result →
      countFor instances subject ≤ 1 → countFor result subject ≤ 1) ∧
    (∀ (lines : List ActualLine) (instances : List ApprovalInstance)
        (tenant lineId : String) (ro dir : Option String)
        (lines2 : List ActualLine) (instances2 : List ApprovalInstance),
      signActual lines instances tenant lineId ro dir =
        .ok (lines2, instances2) →
      countFor instances lineId ≤ 1 → countFor instances2 lineId ≤ 1) := by
  refine ⟨?_, ?_, ?_, ?_⟩
  · intro instances tenant subject ro dir h
    exact ensure_existing instances tenant subject ro dir h
  · intro instances result tenant subject ro dir h
    exact ensure_existing result tenant subject ro dir
      (ensure_ok_any instances result tenant subject ro dir h)
  · intro instances result tenant subject ro dir h hle
    exact ensure_count_le instances result tenant subject ro dir h hle
  · intro lines instances tenant lineId ro dir lines2 instances2 h hle
    unfold signActual at h
    cases hfind : lines.find? (fun a => a.id == lineId) with
    | none => simp [hfind] at h
    | some line =>
        rw [hfind] at h
        cases hens : ensureApprovalInstance instances tenant lineId ro dir
          with
        | error e => simp [hens] at h
        | ok insts2 =>
            rw [hens] at h
            simp at h
            rw [← h.2]
            exact ensure_count_le instances insts2 tenant lineId ro dir
              hens hle

/-- C8 witness: on a store already holding the instance for subject a1,
ensure returns the store unchanged and the count stays at most one. -/
theorem c8_sign_ensure_idempotent_witness :
    ensureApprovalInstance instanceStoreW "t" "a1" (some "u1")
      (some "u2") = .ok instanceStoreW ∧
    countFor instanceStoreW "a1" ≤ 1 :=
  ⟨c8_sign_ensure_idempotent.1 instanceStoreW "t" "a1" (some "u1")
      (some "u2") (by rfl),
   c8_sign_ensure_idempotent.2.2.1 instanceStoreW instanceStoreW "t" "a1"
      (some "u1") (some "u2")
      (c8_sign_ensure_idempotent.1 instanceStoreW "t" "a1" (some "u1")
        (some "u2") (by rfl))
      (by decide)⟩

/-! C6 -/

/-- C6: a successful rejection of any step transitions the whole instance
to rejected immediately — with no hypothesis on the other steps' states —
while every other step is carried over unchanged, and every step carrying
the acted step id is rejected. -/
theorem c6_reject_rejects_instance :
    ∀ (inst : ApprovalInstance) (stepId approverId : String)
      (comment : Option String) (inst2 : ApprovalInstance),
      rejectStep inst stepId approverId comment = .ok inst2 →
      inst2.status = .rejected ∧
      (∀ s ∈ inst.steps, s.id ≠ stepId → s ∈ inst2.steps) ∧
      (∀ s2 ∈ inst2.steps, s2.id = stepId → s2.status = .rejected) := by
  intro inst stepId approverId comment inst2 h
  unfold rejectStep at h
  cases hfind : inst.steps.find? (fun s => s.id == stepId) with
  | none => simp [hfind] at h
  | some st =>
      simp only [hfind] at h
      split at h
      · exact Except.noConfusion h
      split at h
      · exact Except.noConfusion h
      split at h
      · exact Except.noConfusion h
      rw [Except.ok.injEq] at h
      subst h
      refine ⟨rfl, ?_, ?_⟩
      · intro s hs hne
        simp only [List.mem_map]
        exact ⟨s, hs, by simp [hne]⟩
      · intro s2 hs2 heq
        simp only [List.mem_map] at hs2
        obtain ⟨s, hs, hfs⟩ := hs2
        by_cases hid : s.id = stepId
        · rw [← hfs]
          simp [hid]
        · rw [← hfs] at heq
          simp [hid] at heq

/-- C6 witness: rejecting the pending RO step of an instance whose
Director step is still pending turns the whole instance rejected and
leaves the Director step untouched. -/
theorem c6_reject_rejects_instance_witness :
    rejectStep instBothPendingW "s1" "u1" none = .ok instRejectedW ∧
    instRejectedW.status = .rejected :=
  ⟨by rfl,
   (c6_reject_rejects_instance instBothPendingW "s1" "u1" none
      instRejectedW (by rfl)).1⟩

/-! C7 -/

/-- C7: proxyApproveDirectorStep fails with ExplanationRequired whenever
the explanation is empty; given a non-empty explanation it fails with
NotApprover for a caller whose role is not RO; and it succeeds exactly
when the explanation is non-empty, the caller's role is RO, the RO step
exists with the caller as approver and status approved, and the Director
step exists, is pending, and is the addressed step. -/
theorem c7_proxy_approve_guards :
    ∀ (inst : ApprovalInstance) (stepId userId : String) (role : Role)
      (explanation : String),
      (explanation = "" →
        proxyApproveDirectorStep inst stepId userId role explanation =
          .error .ExplanationRequired) ∧
      (explanation ≠ "" → role ≠ .RO →
        proxyApproveDirectorStep inst stepId userId role explanation =
          .error .NotApprover) ∧
      ((∃ inst2,
          proxyApproveDirectorStep inst stepId userId role explanation =
            .ok inst2) ↔
        (explanation ≠ "" ∧ role = .RO ∧
          ∃ ro dir, findRoStep inst = some ro ∧
            findDirectorStep inst = some dir ∧
            ro.approver_id = userId ∧ ro.status = .approved ∧
            dir.status = .pending ∧ dir.id = stepId)) := by
  intro inst stepId userId role explanation
  refine ⟨?_, ?_, ?_⟩
  · intro h
    simp [proxyApproveDirectorStep, h]
  · intro ht hrole
    simp [proxyApproveDirectorStep, ht, hrole]
  · constructor
    · rintro ⟨inst2, h⟩
      unfold proxyApproveDirectorStep at h
      by_cases h1 : explanation = ""
      · simp [h1] at h
      · rw [if_neg (by simp [h1])] at h
        by_cases h2 : role = .RO
        · rw [if_neg (by simp [h2])] at h
          cases hro : findRoStep inst with
          | none => simp [hro] at h
          | some ro =>
              cases hdir : findDirectorStep inst with
              | none => simp [hro, hdir] at h
              | some dir =>
                  simp only [hro, hdir] at h
                  split at h
                  · exact Except.noConfusion h
                  split at h
                  · exact Except.noConfusion h
                  split at h
                  · exact Except.noConfusion h
                  split at h
                  · exact Except.noConfusion h
                  rename_i g1 g2 g3 g4
                  push_neg at g1 g2 g3 g4
                  exact ⟨h1, h2, ro, dir, rfl, rfl, g1, g2, g3, g4⟩
        · rw [if_pos h2] at h
          exact Except.noConfusion h
    · rintro ⟨ht, hrole, ro, dir, hro, hdir, ha, hs, hp, hid⟩
      subst hrole
      unfold proxyApproveDirectorStep
      simp only [hro, hdir]
      rw [if_neg (by simp [ht]), if_neg (by simp), if_neg (by simp [ha]),
          if_neg (by simp [hs]), if_neg (by simp [hp]),
          if_neg (by simp [hid])]
      exact ⟨_, rfl⟩

/-- C7 witness: an empty explanation is refused with ExplanationRequired
even in the legal state, and with explanation "Director on leave" the
proxy approval of the pending Director step succeeds. -/
theorem c7_proxy_approve_guards_witness :
    proxyApproveDirectorStep instRoApprovedW "s2" "u1" .RO "" =
      .error .ExplanationRequired ∧
    (∃ inst2,
      proxyApproveDirectorStep instRoApprovedW "s2" "u1" .RO
        "Director on leave" = .ok inst2) :=
  ⟨(c7_proxy_approve_guards instRoApprovedW "s2" "u1" .RO "").1 rfl,
   (c7_proxy_approve_guards instRoApprovedW "s2" "u1" .RO
      "Director on leave").2.2.mpr
     ⟨by decide, rfl, instRoApprovedW.steps.head (by decide),
      instRoApprovedW.steps.getLast (by decide), by rfl, by rfl, by rfl,
      by rfl, by rfl, by rfl⟩⟩

/-! C4 -/

/-- C4: on a locked period every upsert and delete of Demand, Supply and
Actuals lines fails with PeriodLocked for every caller role, while the
approval step actions — which never consult the period — still succeed
under their own preconditions (for any pending step addressed by its
approver at the lowest pending sequence, both approve and reject return
ok, and the proxy approval of a pending Director step after an approved
RO step returns ok). -/
theorem c4_period_locked_gate :
    ∀ (p : Period) (role : Role), p.status = .locked →
      (∀ (c : DemandCandidate) (nowYear nowMonth : Int),
        upsertDemand role p c nowYear nowMonth = .error .PeriodLocked) ∧
      (∀ c : SupplyCandidate,
        upsertSupply role p c = .error .PeriodLocked) ∧
      (∀ lineId, deleteDemand role p lineId = .error .PeriodLocked) ∧
      (∀ lineId, deleteSupply role p lineId = .error .PeriodLocked) ∧
      (∀ (lines : List ActualLine) (c : ActualLine),
        upsertActualGated role p lines c = .error .PeriodLocked) ∧
      (∀ (lines : List ActualLine) (lineId : String),
        deleteActualGated role p lines lineId = .error .PeriodLocked) ∧
      (∀ (inst : ApprovalInstance) (stepId approverId : String)
          (comment : Option String) (st : ApprovalStep),
        inst.steps.find? (fun s => s.id == stepId) = some st →
        st.approver_id = approverId → st.status = .pending →
        lowestPendingSeq inst.steps = some st.sequence →
        (∃ inst2, approveStep inst stepId approverId comment = .ok inst2) ∧
        (∃ inst3, rejectStep inst stepId approverId comment = .ok inst3)) ∧
      (∀ (inst : ApprovalInstance) (stepId userId explanation : String)
          (ro dir : ApprovalStep),
        explanation ≠ "" → findRoStep inst = some ro →
        findDirectorStep inst = some dir → ro.approver_id = userId →
        ro.status = .approved → dir.status = .pending → dir.id = stepId →
        ∃ inst4, proxyApproveDirectorStep inst stepId userId .RO
          explanation = .ok inst4) := by
  intro p role h
  refine ⟨?_, ?_, ?_, ?_, ?_, ?_, ?_, ?_⟩
  · intro c ny nm
    simp [upsertDemand, h]
  · intro c
    simp [upsertSupply, h]
  · intro lineId
    simp [deleteDemand, h]
  · intro lineId
    simp [deleteSupply, h]
  · intro lines c
    simp [upsertActualGated, upsertActual, h]
  · intro lines lineId
    simp [deleteActualGated, deleteActual, h]
  · intro inst stepId approverId comment st hfind ha hp hseq
    exact ⟨approveStep_ok inst stepId approverId comment st hfind ha hp
        hseq,
      rejectStep_ok inst stepId approverId comment st hfind ha hp hseq⟩
  · intro inst stepId userId explanation ro dir ht hro hdir ha hs hp hid
    unfold proxyApproveDirectorStep
    simp only [hro, hdir]
    rw [if_neg (by simp [ht]), if_neg (by simp), if_neg (by simp [ha]),
        if_neg (by simp [hs]), if_neg (by simp [hp]),
        if_neg (by simp [hid])]
    exact ⟨_, rfl⟩

/-- C4 witness: on a concrete locked period a demand upsert by Finance
fails with PeriodLocked, while approving the pending RO step of an
existing instance still succeeds. -/
theorem c4_period_locked_gate_witness :
    upsertDemand .Finance lockedPeriodW demandCandW 2025 10 =
      .error .PeriodLocked ∧
    (∃ inst2, approveStep instBothPendingW "s1" "u1" none = .ok inst2) :=
  ⟨(c4_period_locked_gate lockedPeriodW .Finance rfl).1 demandCandW
      2025 10,
   ((c4_period_locked_gate lockedPeriodW .Finance rfl).2.2.2.2.2.2.1
      instBothPendingW "s1" "u1" none
      (instBothPendingW.steps.head (by decide)) (by rfl) (by rfl) (by rfl)
      (by rfl)).1⟩

/-! C1 -/

/-- C1: after any committed actuals write the sum of actual_fte_percent
per (tenant, resource, period) never exceeds 100 — if every total was at
most 100 before, every total is at most 100 after a successful
upsertActual — and the validator evaluates the prospective total
including the line being written: on an open period with no signed-line
conflict, a candidate whose prospective total exceeds 100 fails with
ActualsOver100 carrying that prospective (offending) total. -/
theorem c1_actuals_totals_le_100 :
    ∀ (status : PeriodStatus) (lines result : List ActualLine)
      (c : ActualLine),
      (∀ t r p, totalFor lines t r p ≤ 100) →
      (upsertActual status lines c = .ok result →
        ∀ t r p, totalFor result t r p ≤ 100) ∧
      (status = .opened →
        (∀ old ∈ lines, old.id = c.id → old.employee_signed = false) →
        100 < prospectiveTotal lines c →
        upsertActual status lines c =
          .error (.ActualsOver100 c.resource_id
            (prospectiveTotal lines c))) := by
  intro status lines result c hinv
  constructor
  · intro hok t r p
    unfold upsertActual at hok
    split at hok
    · exact Except.noConfusion hok
    have main : ¬ 100 < prospectiveTotal lines c →
        withoutId lines c.id ++ [c] = result →
        totalFor result t r p ≤ 100 := by
      intro hle hres
      rw [← hres, totalFor_append]
      by_cases hk : sameKey c t r p = true
      · simp only [sameKey, Bool.and_eq_true, beq_iff_eq] at hk
        obtain ⟨⟨ht, hr⟩, hp⟩ := hk
        have h1 : totalFor [c] t r p = c.actual_fte_percent := by
          unfold totalFor
          rw [List.filter_cons]
          simp [sameKey, ht, hr, hp]
        rw [h1, ← ht, ← hr, ← hp]
        have h2 : totalFor (withoutId lines c.id) c.tenant_id
            c.resource_id c.period_id + c.actual_fte_percent ≤ 100 := by
          have := hle
          unfold prospectiveTotal at this
          omega
        rw [ht, hr, hp] at h2 ⊢
        exact h2
      · have h1 : totalFor [c] t r p = 0 := by
          unfold totalFor
          rw [List.filter_cons]
          simp [hk]
        rw [h1]
        have h2 : totalFor (withoutId lines c.id) t r p ≤
            totalFor lines t r p := totalFor_filter_le lines _ t r p
        have h3 := hinv t r p
        omega
    cases hfind : lines.find? (fun a => a.id == c.id) with
    | none =>
        simp only [hfind] at hok
        split at hok
        · exact Except.noConfusion hok
        rename_i hle
        rw [Except.ok.injEq] at hok
        exact main hle hok
    | some old =>
        simp only [hfind] at hok
        split at hok
        · exact Except.noConfusion hok
        split at hok
        · exact Except.noConfusion hok
        rename_i hsigned hle
        rw [Except.ok.injEq] at hok
        exact main hle hok
  · intro hopen hunsigned hover
    unfold upsertActual
    rw [if_neg (by simp [hopen])]
    cases hfind : lines.find? (fun a => a.id == c.id) with
    | none => simp [hfind, hover]
    | some old =>
        have hmem : old ∈ lines := List.mem_of_find?_eq_some hfind
        have hid : old.id = c.id := by
          have := List.find?_some hfind
          simpa using this
        simp [hfind, hunsigned old hmem hid, hover]

/-- C1 witness: inserting a 45% line next to an existing 30% line for the
same resource and period succeeds and the total stays at most 100, while
a further 30% write fails with ActualsOver100 carrying the prospective
total 105 — even though the total before that write was only 75. -/
theorem c1_actuals_totals_le_100_witness :
    totalFor actualsResultW "t" "r" "p" ≤ 100 ∧
    upsertActual .opened actualsLedgerW actualW3 =
      .error (.ActualsOver100 "r" 105) :=
  ⟨(c1_actuals_totals_le_100 .opened [actualW1] actualsResultW actualW2
      (by
        intro t r p
        unfold totalFor
        rw [List.filter_cons]
        split
        · simp [actualW1]
        · simp)).1 (by rfl) "t" "r" "p",
   by
    have h := (c1_actuals_totals_le_100 .opened actualsLedgerW
      actualsLedgerW actualW3
      (by
        intro t r p
        unfold totalFor actualsLedgerW
        rw [List.filter_cons, List.filter_cons]
        split
        · split
          · simp [actualW1, actualW2]
          · simp [actualW1]
        · split
          · simp [actualW2]
          · simp)).2 rfl (by decide) (by decide)
    have hpt : prospectiveTotal actualsLedgerW actualW3 = 105 := by decide
    have hrid : actualW3.resource_id = "r" := rfl
    rw [hpt, hrid] at h
    exact h⟩

end ResourceAllocation
